import Mathlib

/-!
Verification of the finance calculator (`app.py`): validation, analysis,
advice generation, chart building and the POST handler, embedded over
exact rational arithmetic.
-/

/-- The form input record (`FinanceInput` dataclass, app.py lines 11-21). -/
structure FinanceInput where
  housing_status : String
  housing_payment : ℚ
  auto_payment : ℚ
  credit_payment : ℚ
  student_payment : ℚ
  monthly_after_tax_income : ℚ
  save_percent : ℚ
  period_mode : String := "paycheck"
  show_annual : String := ""
deriving DecidableEq

/-- Replace the `period_mode` field, leaving every other field unchanged. -/
def withPeriodMode (f : FinanceInput) (p : String) : FinanceInput :=
  ⟨f.housing_status, f.housing_payment, f.auto_payment, f.credit_payment,
   f.student_payment, f.monthly_after_tax_income, f.save_percent, p, f.show_annual⟩

/-- Embeds `validate` (app.py lines 25-39): collects one error string per violated
bound, in the source's fixed order. -/
def validate (finance : FinanceInput) : List String :=
  let errors : List String := []
  let errors := if finance.housing_payment < 0 then
    errors ++ ["Housing payment cannot be negative."] else errors
  let errors := if finance.auto_payment < 0 then
    errors ++ ["Auto loan payment cannot be negative."] else errors
  let errors := if finance.credit_payment < 0 then
    errors ++ ["Credit card payment cannot be negative."] else errors
  let errors := if finance.student_payment < 0 then
    errors ++ ["Student loan payment cannot be negative."] else errors
  let errors := if finance.monthly_after_tax_income < 0 then
    errors ++ ["Take-home pay per paycheck cannot be negative."] else errors
  let errors := if finance.save_percent < 0 ∨ finance.save_percent > 100 then
    errors ++ ["Percent to save must be between 0 and 100."] else errors
  errors

/-- Spec-side rendering of the validator contract: the concatenation, in the
fixed order housing, auto, credit, student, income, save_percent, of one
error message per violated rule. -/
def validate_spec (f : FinanceInput) : List String :=
  (if f.housing_payment < 0 then ["Housing payment cannot be negative."] else []) ++
  (if f.auto_payment < 0 then ["Auto loan payment cannot be negative."] else []) ++
  (if f.credit_payment < 0 then ["Credit card payment cannot be negative."] else []) ++
  (if f.student_payment < 0 then ["Student loan payment cannot be negative."] else []) ++
  (if f.monthly_after_tax_income < 0 then ["Take-home pay per paycheck cannot be negative."] else []) ++
  (if f.save_percent < 0 ∨ f.save_percent > 100 then ["Percent to save must be between 0 and 100."] else [])

/-- The numeric values computed by `analyze_finance` before display
formatting (app.py lines 44-80): the function's local variables. -/
structure AnalysisCore where
  total_debt : ℚ
  income : ℚ
  available_cash : ℚ
  can_save : Bool
  savings : ℚ
  spending : ℚ
  debt_income_ratio : Option ℚ
  total_debt_monthly : ℚ
  available_monthly : ℚ
  monthly_savings : ℚ
  monthly_spending : ℚ
  annual_savings : ℚ
  annual_spending : ℚ
deriving DecidableEq

/-- The numeric part of `analyze_finance` (app.py lines 43-80). -/
def analyze_core (data : FinanceInput) : AnalysisCore :=
  let total_debt := data.housing_payment + data.auto_payment
    + data.credit_payment + data.student_payment
  let income := data.monthly_after_tax_income
  let available_cash := income - total_debt
  let (can_save, savings, spending) :=
    if available_cash ≤ 0 then
      (false, (0 : ℚ), available_cash)
    else
      let save_fraction := max 0 (min data.save_percent 100) / 100
      let savings := available_cash * save_fraction
      (true, savings, available_cash - savings)
  let debt_income_ratio : Option ℚ :=
    if 0 < income then some (total_debt / income) else none
  let paychecks_per_year : ℚ := 26
  let monthly_factor : ℚ := paychecks_per_year / 12
  { total_debt := total_debt
    income := income
    available_cash := available_cash
    can_save := can_save
    savings := savings
    spending := spending
    debt_income_ratio := debt_income_ratio
    total_debt_monthly := total_debt * monthly_factor
    available_monthly := available_cash * monthly_factor
    monthly_savings := savings * monthly_factor
    monthly_spending := spending * monthly_factor
    annual_savings := savings * paychecks_per_year
    annual_spending := spending * paychecks_per_year }

/-- Round a rational to the nearest integer, ties to even: the rounding used
by Python's builtin `round`. -/
def roundHalfEven (q : ℚ) : ℤ :=
  let f := ⌊q⌋
  let frac := q - f
  if frac < 1 / 2 then f
  else if 1 / 2 < frac then f + 1
  else if f % 2 = 0 then f else f + 1

/-- Embeds `fmt` (app.py line 82): round to two decimals and print with exactly two
fractional digits. -/
def fmt (x : ℚ) : String :=
  let n := roundHalfEven (100 * x)
  let sign := if n < 0 then "-" else ""
  let a := n.natAbs
  let r := a % 100
  sign ++ toString (a / 100) ++ "." ++ (if r < 10 then "0" else "") ++ toString r

/-- The result dictionary returned by `analyze_finance`
(app.py lines 84-109): formatted display fields plus the raw values kept
for advice/chart logic. -/
structure AnalysisResult where
  total_debt : String
  available_cash : String
  savings_per_paycheck : String
  spending_per_paycheck : String
  total_debt_monthly : String
  available_monthly : String
  monthly_savings : String
  monthly_spending : String
  annual_savings : String
  annual_spending : String
  can_save : Bool
  available_cash_raw : ℚ
  total_debt_raw : ℚ
  income_raw : ℚ
  debt_income_ratio : Option ℚ
  savings_raw : ℚ
  spending_raw : ℚ
deriving DecidableEq

/-- Embeds `analyze_finance` (app.py lines 43-109): the numeric core packaged into
the result dictionary. -/
def analyze_finance (data : FinanceInput) : AnalysisResult :=
  let c := analyze_core data
  { total_debt := fmt c.total_debt
    available_cash := fmt c.available_cash
    savings_per_paycheck := fmt c.savings
    spending_per_paycheck := fmt c.spending
    total_debt_monthly := fmt c.total_debt_monthly
    available_monthly := fmt c.available_monthly
    monthly_savings := fmt c.monthly_savings
    monthly_spending := fmt c.monthly_spending
    annual_savings := fmt c.annual_savings
    annual_spending := fmt c.annual_spending
    can_save := c.can_save
    available_cash_raw := c.available_cash
    total_debt_raw := c.total_debt
    income_raw := c.income
    debt_income_ratio := c.debt_income_ratio
    savings_raw := c.savings
    spending_raw := c.spending }

/-- The "you are short this period" message (app.py lines 122-126). -/
def shortfall_msg : String :=
  "You are short this period. First goal: get leftover cash to at least 0. " ++
  "Options: reduce non-essential spending, pause extra debt payments, or temporarily increase income " ++
  "(overtime, side work, selling unused items)."

/-- The "list bills vs flexible expenses" message (app.py lines 127-130). -/
def bills_msg : String :=
  "List your must-pay bills vs. flexible expenses. Anything flexible should be cut or reduced " ++
  "until leftover cash is non-negative."

/-- The "very heavy debt load" message (app.py lines 134-138). -/
def very_heavy_msg : String :=
  "Your debt payments are more than 60% of your income this period. This is very heavy. " ++
  "Consider refinancing, consolidating, or focusing on paying down one high-interest debt while " ++
  "keeping others at minimum payments."

/-- The "high debt load" message (app.py lines 140-143). -/
def high_msg : String :=
  "Your debt payments are between 40% and 60% of your income this period. This is high. " ++
  "Be careful taking on new debt and try to reduce one balance consistently."

/-- The "low savings rate" message (app.py lines 147-151). -/
def low_savings_msg : String :=
  "You have leftover cash but are saving a small portion of it. " ++
  "If possible, slowly increase your save percentage (for example, +1% every month) " ++
  "until you reach a level that feels sustainable."

/-- Embeds `advice_messages` (app.py lines 113-153): appends the applicable advice
strings in the source's order. -/
def advice_messages (result : AnalysisResult) : List String :=
  let msgs : List String := []
  let available := result.available_cash_raw
  let r := result.debt_income_ratio
  let msgs := if available < 0 then msgs ++ [shortfall_msg, bills_msg] else msgs
  let msgs :=
    match r with
    | some ratio =>
        if ratio > 0.6 then msgs ++ [very_heavy_msg]
        else if ratio > 0.4 then msgs ++ [high_msg]
        else msgs
    | none => msgs
  let savings_raw := result.savings_raw
  let msgs :=
    if available > 0 ∧ savings_raw < max 20 (0.05 * available) then
      msgs ++ [low_savings_msg]
    else msgs
  msgs

/-- Spec-side rendering of the advisor contract: the concatenation, in the
fixed order, of the shortfall message pair, the (mutually exclusive) debt-load
message, and the low-savings message, each present exactly when its rule
fires. -/
def advice_spec (result : AnalysisResult) : List String :=
  (if result.available_cash_raw < 0 then [shortfall_msg, bills_msg] else []) ++
  (match result.debt_income_ratio with
   | some ratio =>
       if ratio > 0.6 then [very_heavy_msg]
       else if ratio > 0.4 then [high_msg]
       else []
   | none => []) ++
  (if result.available_cash_raw > 0 ∧
      result.savings_raw < max 20 (0.05 * result.available_cash_raw) then
    [low_savings_msg]
  else [])

/-- Round a rational to one decimal place: `round(x, 1)` as used by `pct`
(app.py line 170). -/
def round1 (q : ℚ) : ℚ := (round (10 * q) : ℤ) / 10

/-- The width of one chart row (app.py line 178 together with `pct`,
lines 169-170). -/
def width_of (total value : ℚ) : ℚ :=
  if value ≤ 0 then 0 else round1 (100 * value / total)

/-- Embeds `bar_chart` (app.py lines 157-196): `none` models the placeholder
"no positive amounts" fragment; otherwise the labelled row widths in order. -/
def bar_chart (result : AnalysisResult) : Option (List (String × ℚ)) :=
  let debt := max result.total_debt_raw 0
  let savings := max result.savings_raw 0
  let spending := max result.spending_raw 0
  let total := debt + savings + max spending 0
  if total ≤ 0 then none
  else
    some [("Debt", width_of total debt),
          ("Savings", width_of total savings),
          ("Spending", width_of total (max spending 0))]

/-- The results fragment assembled by the POST handler
(app.py lines 359-440). -/
structure PostResults where
  summary : String
  summary_cls : String
  items : List String
  chart : Option (List (String × ℚ))
  advice : List String
deriving DecidableEq

/-- The POST handler's response: either the error-list fragment
(app.py lines 350-357) or the results fragment. -/
inductive PostResponse where
  | errorList : List String → PostResponse
  | results : PostResults → PostResponse
deriving DecidableEq

/-- The chart component of a response, when the response is a results
fragment. -/
def PostResponse.chartOf : PostResponse → Option (Option (List (String × ℚ)))
  | .errorList _ => none
  | .results r => some r.chart

/-- Embeds `post` (app.py lines 347-440): validate; on errors render only the error
list, otherwise analyze and assemble summary, detail items, chart and
advice. -/
def post (finance : FinanceInput) : PostResponse :=
  let errors := validate finance
  if errors ≠ [] then
    PostResponse.errorList errors
  else
    let result := analyze_finance finance
    let mode := if finance.period_mode = "" then "paycheck" else finance.period_mode
    let show_annual := finance.show_annual ≠ ""
    let summary_pair :=
      if result.available_cash_raw ≤ 0 then
        (if mode = "monthly" then
          "You do not have leftover cash after debts (in the monthly equivalent). " ++
          "You cannot save based on these numbers."
         else
          "You do not have leftover cash after debts this paycheck. " ++
          "You cannot save based on these numbers.",
         "result-bad")
      else
        (if mode = "monthly" then
          "Monthly equivalent: you have " ++ result.available_monthly ++
          " left after debts. You save " ++ result.monthly_savings ++
          " and keep " ++ result.monthly_spending ++ " for other expenses per month."
         else
          "You have " ++ result.available_cash ++
          " left after debts this paycheck. You save " ++ result.savings_per_paycheck ++
          " and keep " ++ result.spending_per_paycheck ++ " for other expenses.",
         "result-good")
    let items :=
      if mode = "monthly" then
        ["total_debt_per_month (approx): " ++ result.total_debt_monthly,
         "available_cash_before_saving_per_month (approx): " ++ result.available_monthly,
         "savings_per_month (approx): " ++ result.monthly_savings,
         "spending_money_per_month (approx): " ++ result.monthly_spending]
      else
        ["total_debt_per_paycheck: " ++ result.total_debt,
         "available_cash_before_saving: " ++ result.available_cash,
         "savings_per_paycheck: " ++ result.savings_per_paycheck,
         "spending_money_per_paycheck: " ++ result.spending_per_paycheck]
    let items :=
      if show_annual then
        items ++ ["annual_savings (26 paychecks): " ++ result.annual_savings ++
                  " | annual_spending (26 paychecks): " ++ result.annual_spending]
      else items
    let advice := advice_messages result
    let chart := bar_chart result
    PostResponse.results
      ⟨summary_pair.1, summary_pair.2, items, chart, advice⟩

/-! ### Sample inputs used by the witnesses -/

/-- Scenario A of the spec: no debt, income 1000, save 10 percent. -/
def sampleA : FinanceInput := ⟨"rent", 0, 0, 0, 0, 1000, 10, "paycheck", ""⟩

/-- Scenario B of the spec: debts 500+200+150+150 against income 900. -/
def sampleB : FinanceInput := ⟨"rent", 500, 200, 150, 150, 900, 20, "paycheck", ""⟩

/-- Scenario E of the spec: save_percent 150, out of range. -/
def sampleBad : FinanceInput := ⟨"rent", 0, 0, 0, 0, 1000, 150, "paycheck", ""⟩

/-! ### Theorems -/

/-- C3: `validate` returns one error message per violated rule and nothing
else, in the fixed order housing, auto, credit, student, income,
save_percent, and returns the empty list exactly on fully valid inputs. -/
theorem validate_exact (f : FinanceInput) :
    validate f = validate_spec f ∧
    (validate f = [] ↔
      0 ≤ f.housing_payment ∧ 0 ≤ f.auto_payment ∧ 0 ≤ f.credit_payment ∧
      0 ≤ f.student_payment ∧ 0 ≤ f.monthly_after_tax_income ∧
      0 ≤ f.save_percent ∧ f.save_percent ≤ 100) := by
  have h : validate f = validate_spec f := by
    unfold validate validate_spec
    split_ifs <;> rfl
  refine ⟨h, ?_⟩
  rw [h]
  unfold validate_spec
  simp only [List.append_eq_nil, ite_eq_right_iff, List.cons_ne_nil, imp_false, not_lt, not_or]
  tauto

/-- C2: `advice_messages` returns exactly the messages dictated by the three
rules in the fixed order: the shortfall pair iff available cash is negative,
exactly one debt-load message when the ratio is present and exceeds 0.4
(very-heavy above 0.6, high otherwise), and the low-savings message iff
available cash is positive and savings fall below max(20, 5 percent of it);
nothing else. -/
theorem advice_messages_exact (r : AnalysisResult) :
    advice_messages r = advice_spec r := by
  unfold advice_messages advice_spec
  cases r.debt_income_ratio <;> dsimp only <;> split_ifs <;> simp

/-- C1: `analyze_finance` performs the case split exactly as specified: when
available cash (income minus the four payments) is ≤ 0 it sets
can_save = false, savings = 0 and spending = available cash; otherwise
can_save = true, savings = available cash times the clamped save fraction,
and spending is the remainder. -/
theorem analyze_finance_case_split (d : FinanceInput) (total_debt available_cash : ℚ)
    (htd : total_debt = d.housing_payment + d.auto_payment + d.credit_payment + d.student_payment)
    (hac : available_cash = d.monthly_after_tax_income - total_debt) :
    (available_cash ≤ 0 →
      (analyze_finance d).can_save = false ∧
      (analyze_finance d).savings_raw = 0 ∧
      (analyze_finance d).spending_raw = available_cash) ∧
    (0 < available_cash →
      (analyze_finance d).can_save = true ∧
      (analyze_finance d).savings_raw = available_cash * (max 0 (min d.save_percent 100) / 100) ∧
      (analyze_finance d).spending_raw =
        available_cash - available_cash * (max 0 (min d.save_percent 100) / 100)) := by
  subst htd
  subst hac
  unfold analyze_finance analyze_core
  constructor
  · intro h
    simp [h]
  · intro h
    simp [not_le.mpr h]

/-- Witness for C1: both branches at concrete inputs (Scenario B is in
shortfall, Scenario A can save). -/
theorem analyze_finance_case_split_witness :
    ((analyze_finance sampleB).can_save = false ∧
     (analyze_finance sampleB).savings_raw = 0 ∧
     (analyze_finance sampleB).spending_raw = -100) ∧
    ((analyze_finance sampleA).can_save = true ∧
     (analyze_finance sampleA).savings_raw = 1000 * (max 0 (min sampleA.save_percent 100) / 100) ∧
     (analyze_finance sampleA).spending_raw =
       1000 - 1000 * (max 0 (min sampleA.save_percent 100) / 100)) :=
  ⟨(analyze_finance_case_split sampleB 1000 (-100)
      (by norm_num [sampleB]) (by norm_num [sampleB])).1 (by norm_num),
   (analyze_finance_case_split sampleA 0 1000
      (by norm_num [sampleA]) (by norm_num [sampleA])).2 (by norm_num)⟩

/-- C5: the debt-to-income ratio is `some (total_debt / income)` exactly when
income is positive, and absent (`none`, not the number 0) otherwise, in
particular whenever income = 0, for all debt totals. -/
theorem debt_income_ratio_exact (d : FinanceInput) :
    (analyze_finance d).debt_income_ratio =
      if 0 < d.monthly_after_tax_income then
        some ((d.housing_payment + d.auto_payment + d.credit_payment + d.student_payment) /
          d.monthly_after_tax_income)
      else none := by
  unfold analyze_finance analyze_core
  by_cases h : d.monthly_after_tax_income -
      (d.housing_payment + d.auto_payment + d.credit_payment + d.student_payment) ≤ 0 <;>
    simp [h]

/-- C6: every monthly-equivalent field of the analysis equals the
corresponding per-paycheck field times 26/12, and the annual fields equal the
per-paycheck savings and spending times 26. -/
theorem monthly_annual_scaling (d : FinanceInput) :
    (analyze_core d).total_debt_monthly = (analyze_core d).total_debt * (26 / 12) ∧
    (analyze_core d).available_monthly = (analyze_core d).available_cash * (26 / 12) ∧
    (analyze_core d).monthly_savings = (analyze_core d).savings * (26 / 12) ∧
    (analyze_core d).monthly_spending = (analyze_core d).spending * (26 / 12) ∧
    (analyze_core d).annual_savings = (analyze_core d).savings * 26 ∧
    (analyze_core d).annual_spending = (analyze_core d).spending * 26 := by
  unfold analyze_core
  by_cases h : d.monthly_after_tax_income -
      (d.housing_payment + d.auto_payment + d.credit_payment + d.student_payment) ≤ 0 <;>
    simp [h]

/-- C7: when available cash is positive, savings plus spending equals
available cash exactly. -/
theorem savings_spending_sum (d : FinanceInput)
    (h : 0 < (analyze_finance d).available_cash_raw) :
    (analyze_finance d).savings_raw + (analyze_finance d).spending_raw =
      (analyze_finance d).available_cash_raw := by
  unfold analyze_finance analyze_core at h ⊢
  by_cases hc : d.monthly_after_tax_income -
      (d.housing_payment + d.auto_payment + d.credit_payment + d.student_payment) ≤ 0
  · simp [hc] at h
    exact absurd h (not_lt.mpr (sub_nonpos.mp hc))
  · simp [hc]

/-- Witness for C7: Scenario A, where savings 100 plus spending 900 makes the
1000 of available cash. -/
theorem savings_spending_sum_witness :
    0 < (analyze_finance sampleA).available_cash_raw ∧
    (analyze_finance sampleA).savings_raw + (analyze_finance sampleA).spending_raw =
      (analyze_finance sampleA).available_cash_raw :=
  ⟨by norm_num [analyze_finance, analyze_core, sampleA],
   savings_spending_sum sampleA (by norm_num [analyze_finance, analyze_core, sampleA])⟩

/-- C10: for every input, including out-of-contract ones, savings is
non-negative, savings never exceeds the positive part of available cash, and
savings plus spending equals available cash, because the save fraction is
clamped to [0, 1]. -/
theorem analyze_finance_invariants (d : FinanceInput) :
    0 ≤ (analyze_finance d).savings_raw ∧
    (analyze_finance d).savings_raw ≤ max (analyze_finance d).available_cash_raw 0 ∧
    (analyze_finance d).savings_raw + (analyze_finance d).spending_raw =
      (analyze_finance d).available_cash_raw := by
  have hf0 : (0:ℚ) ≤ max 0 (min d.save_percent 100) / 100 :=
    div_nonneg (le_max_left _ _) (by norm_num)
  have hf1 : max 0 (min d.save_percent 100) / 100 ≤ 1 := by
    rw [div_le_one (by norm_num : (0:ℚ) < 100)]
    exact max_le (by norm_num) (min_le_right _ _)
  unfold analyze_finance analyze_core
  by_cases h : d.monthly_after_tax_income -
      (d.housing_payment + d.auto_payment + d.credit_payment + d.student_payment) ≤ 0
  · simp [h]
  · have hac : 0 < d.monthly_after_tax_income -
        (d.housing_payment + d.auto_payment + d.credit_payment + d.student_payment) :=
      not_le.mp h
    simp only [h, ite_false]
    refine ⟨mul_nonneg hac.le hf0, ?_, by ring⟩
    have h1 : (d.monthly_after_tax_income -
        (d.housing_payment + d.auto_payment + d.credit_payment + d.student_payment)) *
        (max 0 (min d.save_percent 100) / 100) ≤ d.monthly_after_tax_income -
        (d.housing_payment + d.auto_payment + d.credit_payment + d.student_payment) := by
      have := mul_le_mul_of_nonneg_left hf1 hac.le
      simpa using this
    exact h1.trans (le_max_left _ _)

/-- Integer rounding is monotone over ℚ. -/
theorem round_mono_rat {a b : ℚ} (h : a ≤ b) : round a ≤ round b := by
  rw [round_eq, round_eq]
  exact Int.floor_mono (by linarith)

/-- Applying `round1` to a non-negative rational gives a non-negative result. -/
theorem round1_nonneg {q : ℚ} (h : 0 ≤ q) : 0 ≤ round1 q := by
  unfold round1
  have h10 : (0:ℤ) ≤ round (10 * q) := by
    have := round_mono_rat (by linarith : (0:ℚ) ≤ 10 * q)
    simpa using this
  exact div_nonneg (by exact_mod_cast h10) (by norm_num)

/-- Applying `round1` to a rational at most 100 gives at most 100. -/
theorem round1_le_100 {q : ℚ} (h : q ≤ 100) : round1 q ≤ 100 := by
  unfold round1
  have h10 : round (10 * q) ≤ 1000 := by
    have := round_mono_rat (by linarith : 10 * q ≤ (1000:ℚ))
    simpa using this
  rw [div_le_iff (by norm_num : (0:ℚ) < 10)]
  calc ((round (10 * q) : ℤ) : ℚ) ≤ ((1000 : ℤ) : ℚ) := by exact_mod_cast h10
    _ = 100 * 10 := by norm_num

/-- Rounding zero to one decimal gives zero. -/
theorem round1_zero : round1 0 = 0 := by
  unfold round1
  simp

/-- On non-negative values the chart width is exactly the rounded
percentage. -/
theorem width_of_eq {total x : ℚ} (h : 0 ≤ x) :
    width_of total x = round1 (100 * x / total) := by
  unfold width_of
  by_cases hx : x ≤ 0
  · have hx0 : x = 0 := le_antisymm hx h
    subst hx0
    simp [round1_zero]
  · rw [if_neg hx]

/-- C4: the chart builder clamps debt, savings and spending to ≥ 0; when the
sum of the clamped values is ≤ 0 it returns the placeholder, and otherwise
each displayed percentage equals round(100·value/sum, 1), lies in [0, 100],
and is 0 whenever its clamped value is 0. -/
theorem bar_chart_correct (r : AnalysisResult) (debt savings spending total : ℚ)
    (hd : debt = max r.total_debt_raw 0)
    (hs : savings = max r.savings_raw 0)
    (hp : spending = max r.spending_raw 0)
    (ht : total = debt + savings + spending) :
    (total ≤ 0 → bar_chart r = none) ∧
    (0 < total →
      bar_chart r = some [("Debt", round1 (100 * debt / total)),
        ("Savings", round1 (100 * savings / total)),
        ("Spending", round1 (100 * spending / total))] ∧
      (0 ≤ round1 (100 * debt / total) ∧ round1 (100 * debt / total) ≤ 100 ∧
        (debt = 0 → round1 (100 * debt / total) = 0)) ∧
      (0 ≤ round1 (100 * savings / total) ∧ round1 (100 * savings / total) ≤ 100 ∧
        (savings = 0 → round1 (100 * savings / total) = 0)) ∧
      (0 ≤ round1 (100 * spending / total) ∧ round1 (100 * spending / total) ≤ 100 ∧
        (spending = 0 → round1 (100 * spending / total) = 0))) := by
  have hd0 : 0 ≤ debt := by rw [hd]; exact le_max_right _ _
  have hs0 : 0 ≤ savings := by rw [hs]; exact le_max_right _ _
  have hp0 : 0 ≤ spending := by rw [hp]; exact le_max_right _ _
  have hchart : bar_chart r =
      if total ≤ 0 then none
      else some [("Debt", width_of total debt), ("Savings", width_of total savings),
        ("Spending", width_of total spending)] := by
    unfold bar_chart
    dsimp only
    rw [← hd, ← hs, ← hp, max_eq_left hp0, ← ht]
  constructor
  · intro h
    rw [hchart, if_pos h]
  · intro h
    have hdt : debt ≤ total := by rw [ht]; linarith
    have hst : savings ≤ total := by rw [ht]; linarith
    have hpt : spending ≤ total := by rw [ht]; linarith
    have bound : ∀ v : ℚ, 0 ≤ v → v ≤ total →
        0 ≤ round1 (100 * v / total) ∧ round1 (100 * v / total) ≤ 100 ∧
        (v = 0 → round1 (100 * v / total) = 0) := by
      intro v hv0 hvt
      refine ⟨round1_nonneg (div_nonneg (mul_nonneg (by norm_num) hv0) h.le), ?_, ?_⟩
      · refine round1_le_100 ?_
        rw [div_le_iff h]
        calc 100 * v ≤ 100 * total := mul_le_mul_of_nonneg_left hvt (by norm_num)
          _ = 100 * total := rfl
      · intro hv
        rw [hv]
        simp [round1_zero]
    refine ⟨?_, bound debt hd0 hdt, bound savings hs0 hst, bound spending hp0 hpt⟩
    rw [hchart, if_neg (not_le.mpr h),
      width_of_eq hd0, width_of_eq hs0, width_of_eq hp0]

/-- Witness for C4: Scenario A, where the clamped categories are 0, 100 and
900 against a total of 1000. -/
theorem bar_chart_correct_witness :
    bar_chart (analyze_finance sampleA) = some [("Debt", round1 (100 * 0 / 1000)),
      ("Savings", round1 (100 * 100 / 1000)),
      ("Spending", round1 (100 * 900 / 1000))] ∧
    (0 ≤ round1 (100 * 0 / 1000) ∧ round1 (100 * 0 / 1000) ≤ 100 ∧
      ((0:ℚ) = 0 → round1 (100 * 0 / 1000) = 0)) ∧
    (0 ≤ round1 (100 * 100 / 1000) ∧ round1 (100 * 100 / 1000) ≤ 100 ∧
      ((100:ℚ) = 0 → round1 (100 * 100 / 1000) = 0)) ∧
    (0 ≤ round1 (100 * 900 / 1000) ∧ round1 (100 * 900 / 1000) ≤ 100 ∧
      ((900:ℚ) = 0 → round1 (100 * 900 / 1000) = 0)) :=
  (bar_chart_correct (analyze_finance sampleA) 0 100 900 1000
    (by norm_num [analyze_finance, analyze_core, sampleA])
    (by norm_num [analyze_finance, analyze_core, sampleA])
    (by norm_num [analyze_finance, analyze_core, sampleA])
    (by norm_num)).2 (by norm_num)

/-- C8: when validation fails, the POST handler renders exactly the error
list: the response carries no analysis, advice or chart data. -/
theorem post_invalid_renders_errors (finance : FinanceInput)
    (h : validate finance ≠ []) :
    post finance = PostResponse.errorList (validate finance) := by
  unfold post
  rw [if_pos h]

/-- Witness for C8: Scenario E, save_percent = 150, is rejected and only the
error list is rendered. -/
theorem post_invalid_renders_errors_witness :
    validate sampleBad ≠ [] ∧
    post sampleBad = PostResponse.errorList (validate sampleBad) :=
  ⟨by norm_num [validate, sampleBad],
   post_invalid_renders_errors sampleBad (by norm_num [validate, sampleBad])⟩

/-- C9: two inputs that differ only in `period_mode` produce the same chart
component in the POST response: the chart is computed from per-paycheck raw
values and never reads `period_mode`. -/
theorem chart_period_mode_invariant (f : FinanceInput) (p1 p2 : String) :
    (post (withPeriodMode f p1)).chartOf = (post (withPeriodMode f p2)).chartOf := by
  by_cases hv : validate f = []
  · have h1 : ¬ validate (withPeriodMode f p1) ≠ [] := not_not_intro hv
    have h2 : ¬ validate (withPeriodMode f p2) ≠ [] := not_not_intro hv
    unfold post
    rw [if_neg h1, if_neg h2]
    rfl
  · have h1 : validate (withPeriodMode f p1) ≠ [] := hv
    have h2 : validate (withPeriodMode f p2) ≠ [] := hv
    unfold post
    rw [if_pos h1, if_pos h2]
    rfl
